import Mathlib

/-!
Verification of the syslog-to-Redis bridge in `syslog_stream.py`.

The Python source is shallowly embedded: the regular expression
`SYSLOG_PATTERN` is compiled by hand into a deterministic matcher
(`syslogPatternMatch`) that reproduces Python `re.match` semantics for this
one pattern, including its backtracking behaviour; `datetime.strptime`,
`datetime` comparison, `replace`, and `isoformat` are modelled on a record
of calendar fields; the Redis client is modelled as an oracle function and
the write path records the calls it performs.  Character classes model the
ASCII subset of Python's Unicode classes (`\w`, `\d`, `\s`), which covers
every input considered here.
-/

set_option maxRecDepth 4000

namespace SyslogStream

/-- ASCII whitespace recognised by Python's regex class `\s` and by
`str.strip`: space, tab, newline, carriage return, vertical tab, form feed. -/
def isSpaceChar (c : Char) : Bool :=
  c == ' ' || c == '\t' || c == '\n' || c == '\r' || c == '\x0b' || c == '\x0c'

/-- ASCII decimal digit, Python regex class `\d`. -/
def isDigitChar (c : Char) : Bool :=
  '0' ≤ c && c ≤ '9'

/-- ASCII word character, Python regex class `\w`: letter, digit or underscore. -/
def isWordChar (c : Char) : Bool :=
  c.isAlpha || isDigitChar c || c == '_'

/-- Greedy maximal munch of a character class: the pair
(longest prefix satisfying `p`, remainder).  Models how a greedy
`C+` / `C*` consumes input inside `SYSLOG_PATTERN`. -/
def munch (p : Char → Bool) (l : List Char) : List Char × List Char :=
  (l.takeWhile p, l.dropWhile p)

/-- The named groups captured by a successful `SYSLOG_PATTERN` match. -/
structure SyslogGroups where
  pri : String
  timestamp : String
  host : String
  tag : String
  body : String
deriving DecidableEq

/-- Models the tail `:\s?(?P<body>.*)$` of `SYSLOG_PATTERN` after the colon
has been consumed: `\s?` greedily takes one whitespace character (trying the
zero-width alternative on failure), `.*` takes the longest run of
non-newline characters, and `$` accepts only at the end of the string or
immediately before a terminal newline. -/
def matchDotStarEnd (l : List Char) : Option (List Char) :=
  let m := munch (fun c => c != '\n') l
  if m.2 = [] || m.2 = ['\n'] then some m.1 else none

/-- The `\s?` before the body group: greedily consume one whitespace
character and try `matchDotStarEnd`; on failure backtrack to the
zero-width alternative. -/
def matchBody (r : List Char) : Option (List Char) :=
  match r with
  | c :: rest =>
    if isSpaceChar c then
      match matchDotStarEnd rest with
      | some b => some b
      | none => matchDotStarEnd r
    else matchDotStarEnd r
  | [] => matchDotStarEnd []

/-- Models `\s+(?P<tag>[^:]+):` given the greedy whitespace run `ws`
(nonempty) already consumed and the remainder `r`.  `[^:]+` takes the
longest non-colon run; when that run is empty (the colon is adjacent to the
whitespace) the regex engine backtracks one character out of `\s+`, making
the tag a single whitespace character — possible only when the whitespace
run had length at least two.  Returns the tag and the remainder after the
colon. -/
def matchTagColon (ws : List Char) (r : List Char) : Option (List Char × List Char) :=
  let m := munch (fun c => c != ':') r
  match m.2 with
  | ':' :: r2 =>
    if m.1 = [] then
      if 2 ≤ ws.length then some ([ws.getLastD ' '], r2) else none
    else some (m.1, r2)
  | _ => none

/-- Hand compilation of
`re.match` with `SYSLOG_PATTERN =
^<(?P<pri>\d+)>(?P<timestamp>\w{3}\s+\d{1,2}\s+\d{2}:\d{2}:\d{2})\s+(?P<host>\S+)\s+(?P<tag>[^:]+):\s?(?P<body>.*)$`.
Each quantifier whose character class is disjoint from what follows is a
deterministic maximal munch; the two genuine backtracking points
(`\s+` before the tag, and `\s?` before the body) are handled by
`matchTagColon` and `matchBody`.  Returns the captured groups, or `none`
when the line does not match from position 0. -/
def syslogPatternMatch (s : List Char) : Option SyslogGroups :=
  match s with
  | '<' :: r0 =>
    let priM := munch isDigitChar r0
    if priM.1 = [] then none else
    match priM.2 with
    | '>' :: r2 =>
      match r2 with
      | a :: b :: c :: r3 =>
        if isWordChar a && isWordChar b && isWordChar c then
          let ws1 := munch isSpaceChar r3
          if ws1.1 = [] then none else
          let day := munch isDigitChar ws1.2
          if day.1 = [] || 2 < day.1.length then none else
          let ws2 := munch isSpaceChar day.2
          if ws2.1 = [] then none else
          match ws2.2 with
          | h1 :: h2 :: c1 :: m1 :: m2 :: c2 :: s1 :: s2 :: r7 =>
            if isDigitChar h1 && isDigitChar h2 && c1 == ':' && isDigitChar m1 &&
               isDigitChar m2 && c2 == ':' && isDigitChar s1 && isDigitChar s2 then
              let ws3 := munch isSpaceChar r7
              if ws3.1 = [] then none else
              let host := munch (fun c => !isSpaceChar c) ws3.2
              if host.1 = [] then none else
              let ws4 := munch isSpaceChar host.2
              if ws4.1 = [] then none else
              match matchTagColon ws4.1 ws4.2 with
              | none => none
              | some (tag, r11) =>
                match matchBody r11 with
                | none => none
                | some body =>
                  some { pri := priM.1.asString
                         timestamp := ([a, b, c] ++ ws1.1 ++ day.1 ++ ws2.1 ++
                           [h1, h2, ':', m1, m2, ':', s1, s2]).asString
                         host := host.1.asString
                         tag := tag.asString
                         body := body.asString }
            else none
          | _ => none
        else none
      | _ => none
    | _ => none
  | _ => none

/-- Value of a decimal-digit string, models Python `int(...)` on the
`pri` group (which `\d+` guarantees to be all digits). -/
def strToNat (s : String) : Nat :=
  s.toList.foldl (fun a c => 10 * a + (c.toNat - '0'.toNat)) 0

/-- Calendar fields of a Python `datetime` value. -/
structure DateTime where
  year : Nat
  month : Nat
  day : Nat
  hour : Nat
  minute : Nat
  second : Nat
  microsecond : Nat
deriving DecidableEq

/-- Python `datetime` comparison: lexicographic on the calendar fields. -/
def DateTime.cmp (a b : DateTime) : Ordering :=
  ((((((compare a.year b.year).then
    (compare a.month b.month)).then
    (compare a.day b.day)).then
    (compare a.hour b.hour)).then
    (compare a.minute b.minute)).then
    (compare a.second b.second)).then
    (compare a.microsecond b.microsecond)

/-- `a > b` on Python datetimes. -/
def dtGt (a b : DateTime) : Bool :=
  a.cmp b == Ordering.gt

/-- Gregorian leap year rule, as in Python's `calendar`/`datetime`. -/
def isLeapYear (y : Nat) : Bool :=
  (y % 4 == 0 && y % 100 != 0) || y % 400 == 0

/-- Days in a month, as enforced by the `datetime` constructor and
`datetime.replace`. -/
def daysInMonth (y m : Nat) : Nat :=
  if m == 2 then (if isLeapYear y then 29 else 28)
  else if m == 4 || m == 6 || m == 9 || m == 11 then 30
  else 31

/-- Lower-cased English month abbreviations, the alternation Python's
`_strptime` builds for `%b` in the C locale (matched case-insensitively). -/
def monthNames : List String :=
  ["jan", "feb", "mar", "apr", "may", "jun", "jul", "aug", "sep", "oct", "nov", "dec"]

/-- ASCII lower-casing, models `str.lower` / `re.IGNORECASE` on the inputs
considered here. -/
def lowerStr (s : String) : String :=
  (s.toList.map Char.toLower).asString

/-- Month number (1–12) from a 3-character abbreviation, case-insensitive;
`none` when the token is not a month. -/
def monthFromAbbrev (s : String) : Option Nat :=
  (monthNames.findIdx? (fun t => t == lowerStr s)).map (· + 1)

/-- Models `datetime.strptime(f"{year} {ts}", "%Y %b %d %H:%M:%S")` for
timestamp strings of the shape produced by `SYSLOG_PATTERN`'s `timestamp`
group (3 word characters, whitespace, 1–2 digits, whitespace,
`dd:dd:dd`); other strings, which the source never passes, are rejected
like a format mismatch.  `none` models the `ValueError` raised either by
`_strptime` (unknown month, day 0 or above 31, hour above 23, minute above
59) or by the `datetime` constructor (second above 59, day out of range
for the month).  `%Y` requires exactly four digits, so years outside
1000–9999 fail. -/
def strptimeTimestamp (year : Nat) (ts : String) : Option DateTime :=
  if year < 1000 || 9999 < year then none else
  match ts.toList with
  | a :: b :: c :: r3 =>
    match monthFromAbbrev ([a, b, c]).asString with
    | none => none
    | some month =>
      let ws1 := munch isSpaceChar r3
      if ws1.1 = [] then none else
      let dayM := munch isDigitChar ws1.2
      if dayM.1 = [] || 2 < dayM.1.length then none else
      let day := strToNat dayM.1.asString
      if day = 0 || daysInMonth year month < day then none else
      let ws2 := munch isSpaceChar dayM.2
      if ws2.1 = [] then none else
      match ws2.2 with
      | h1 :: h2 :: c1 :: m1 :: m2 :: c2 :: s1 :: s2 :: rest =>
        if isDigitChar h1 && isDigitChar h2 && c1 == ':' && isDigitChar m1 &&
           isDigitChar m2 && c2 == ':' && isDigitChar s1 && isDigitChar s2 &&
           rest.isEmpty then
          let hour := strToNat ([h1, h2]).asString
          let minute := strToNat ([m1, m2]).asString
          let second := strToNat ([s1, s2]).asString
          if 23 < hour || 59 < minute || 59 < second then none
          else some ⟨year, month, day, hour, minute, second, 0⟩
        else none
      | _ => none
  | _ => none

/-- Zero-pad a number to two digits, as Python `isoformat` does. -/
def pad2 (n : Nat) : String :=
  if n < 10 then "0" ++ toString n else toString n

/-- Zero-pad a year to four digits, as Python `isoformat` does. -/
def pad4 (n : Nat) : String :=
  if n < 10 then "000" ++ toString n
  else if n < 100 then "00" ++ toString n
  else if n < 1000 then "0" ++ toString n
  else toString n

/-- Zero-pad microseconds to six digits, as Python `isoformat` does. -/
def pad6 (n : Nat) : String :=
  if n < 10 then "00000" ++ toString n
  else if n < 100 then "0000" ++ toString n
  else if n < 1000 then "000" ++ toString n
  else if n < 10000 then "00" ++ toString n
  else if n < 100000 then "0" ++ toString n
  else toString n

/-- Python `datetime.isoformat()`: `YYYY-MM-DDTHH:MM:SS`, with the
`.ffffff` fraction appended only when the microsecond field is nonzero. -/
def DateTime.isoformat (d : DateTime) : String :=
  pad4 d.year ++ "-" ++ pad2 d.month ++ "-" ++ pad2 d.day ++ "T" ++
    pad2 d.hour ++ ":" ++ pad2 d.minute ++ ":" ++ pad2 d.second ++
    (if d.microsecond = 0 then "" else "." ++ pad6 d.microsecond)

/-- The body of `_parse_timestamp` before formatting: the `strptime` call
pairing the current year with the parsed month/day/time, the
`dt > current_utc` future check, and the `dt.replace(year=dt.year - 1)`
rollback — which itself raises `ValueError` when the rolled-back date does
not exist (Feb 29 of a non-leap year).  `none` models the `ValueError`
caught by the `except` clause. -/
def resolveTimestamp (now : DateTime) (ts : String) : Option DateTime :=
  match strptimeTimestamp now.year ts with
  | none => none
  | some dt =>
    if dtGt dt now then
      if dt.day ≤ daysInMonth (dt.year - 1) dt.month then
        some { dt with year := dt.year - 1 }
      else none
    else some dt

/-- Models `_parse_timestamp` from `syslog_stream.py`: ISO-8601 text with a
`Z` suffix on success, `""` when the timestamp cannot be resolved.  The
ambient `datetime.utcnow()` is passed explicitly as `now`. -/
def _parse_timestamp (now : DateTime) (timestamp : String) : String :=
  match resolveTimestamp now timestamp with
  | none => ""
  | some dt => dt.isoformat ++ "Z"

/-- Models `_decode_pri` from `syslog_stream.py`: `(facility, severity) =
(pri // 8, pri % 8)`.  The only caller passes `int(match.group("pri"))`,
which is non-negative, so Nat division coincides with Python's floor
division. -/
def _decode_pri (pri : Nat) : Nat × Nat :=
  (pri / 8, pri % 8)

/-- A value stored in the event dictionary: Python `str`, `int`, or `None`.
No field of any event built by this program holds a `dict` or `list`. -/
inductive Value where
  | str (s : String)
  | int (n : Nat)
  | none
deriving DecidableEq

/-- Models `parse_syslog_message` from `syslog_stream.py`.  The dictionary
is represented as an association list in insertion order: `{"raw": message}`
first, then — only when `SYSLOG_PATTERN` matches — the keys added by
`parsed.update(...)` in the order of the dict literal.  `timestamp or None`
turns the empty-string failure sentinel of `_parse_timestamp` into `None`.
The ambient `datetime.utcnow()` used by `_parse_timestamp` is passed
explicitly as `now`. -/
def parse_syslog_message (now : DateTime) (message : String) : List (String × Value) :=
  let parsed : List (String × Value) := [("raw", Value.str message)]
  match syslogPatternMatch message.toList with
  | Option.none => parsed
  | some m =>
    let pri := strToNat m.pri
    let fs := _decode_pri pri
    let timestamp := _parse_timestamp now m.timestamp
    parsed ++
      [("pri", Value.int pri),
       ("facility", Value.int fs.1),
       ("severity", Value.int fs.2),
       ("timestamp", if timestamp = "" then Value.none else Value.str timestamp),
       ("host", Value.str m.host),
       ("tag", Value.str m.tag),
       ("message", Value.str m.body)]

/-- One `redis.xadd` invocation: the destination stream and the flat
field→string payload submitted. -/
structure XaddCall where
  stream : String
  payload : List (String × String)
deriving DecidableEq

/-- Python `str(value)` on the values that occur in events: a string maps
to itself, an int to its decimal representation.  (`Value.none` never
reaches this conversion: `write` skips it first.) -/
def valueToStr (v : Value) : String :=
  match v with
  | Value.str s => s
  | Value.int n => toString n
  | Value.none => ""

/-- The payload-building loop of `RedisStreamWriter.write`: fields whose
value is `None` are skipped (`continue`), every other value is converted
with `str(value)`.  The `isinstance(value, (dict, list))` branch
(`json.dumps`) is not modelled because no event built by this program
carries a dict or list value. -/
def writePayload (event : List (String × Value)) : List (String × String) :=
  event.filterMap fun kv =>
    match kv.2 with
    | Value.none => Option.none
    | v => some (kv.1, valueToStr v)

/-- Models `RedisStreamWriter`: the Redis connection is an oracle mapping a
stream name and payload to the outcome of `xadd` — `Except.error` models a
raised `redis` exception, `Except.ok` the assigned record id. -/
structure RedisStreamWriter where
  xadd : String → List (String × String) → Except String String
  stream_name : String

/-- Models `RedisStreamWriter.write`: builds the payload, then performs the
single `self.redis.xadd(self.stream_name, payload)` call, whose outcome is
returned unchanged (an exception propagates to the caller, an id is
returned).  The second component records the `xadd` calls performed during
the `write` call, in order. -/
def RedisStreamWriter.write (w : RedisStreamWriter) (event : List (String × Value)) :
    Except String String × List XaddCall :=
  let payload := writePayload event
  (w.xadd w.stream_name payload, [⟨w.stream_name, payload⟩])

/-- Models Python `str.strip()` (ASCII whitespace). -/
def pythonStrip (s : String) : String :=
  (((s.toList.dropWhile isSpaceChar).reverse.dropWhile isSpaceChar).reverse).asString

/-- Models `RedisSyslogUDPHandler.handle`: strip the decoded datagram text,
parse it, stamp `received_at`, and write the event.  `bytes.decode("utf-8",
errors="replace")` is total — it never raises — so the handler is modelled
on its output text.  The two `datetime.utcnow()` readings (inside
`_parse_timestamp` and for `received_at`) are passed explicitly.
`event["received_at"]` inserts a fresh key, since `parse_syslog_message`
never produces it, so it appends in dict insertion order. -/
def RedisSyslogUDPHandler.handle (parseNow recvNow : DateTime)
    (w : RedisStreamWriter) (text : String) : Except String String × List XaddCall :=
  let message := pythonStrip text
  let event := parse_syslog_message parseNow message
  let event := event ++ [("received_at", Value.str (recvNow.isoformat ++ "Z"))]
  w.write event

/-- Lifecycle states of the UDP server (§4.4 of the spec). -/
inductive ServerState where
  | listening
  | stopped
deriving DecidableEq

/-- Modelled from the standard-library `socketserver.ThreadingUDPServer`
dispatch that `RedisSyslogUDPServer` inherits: `process_request_thread`
runs `finish_request` (which runs the handler) inside
`try/except Exception`, and on an exception calls `handle_error`, which
logs the traceback and returns, leaving the serving loop untouched.
Input: the server state and the handler outcome; output: the server state
after the datagram and the logged error, if any. -/
def process_request_thread (st : ServerState) (outcome : Except String String) :
    ServerState × Option String :=
  match outcome with
  | Except.ok _ => (st, Option.none)
  | Except.error e => (st, some e)

/-- A fixed reference reading of `datetime.utcnow()` used to instantiate
theorems about the parser: 2026-10-12 00:00:00 UTC. -/
def refNow : DateTime :=
  ⟨2026, 10, 12, 0, 0, 0, 0⟩

/-- C1: for every input line that does not match the recognized grammar
from position 0, `parse_syslog_message` returns an event equal to
`{raw: <original text>}` exactly — every other field absent, no exception
raised, no partial extraction. -/
theorem claim_c1_nonmatching_raw_only (now : DateTime) (s : String)
    (h : syslogPatternMatch s.toList = Option.none) :
    parse_syslog_message now s = [("raw", Value.str s)] := by
  have h' : syslogPatternMatch s.data = Option.none := h
  simp [parse_syslog_message, h']

/-- Witness for C1 at the spec's concrete scenario B input. -/
theorem claim_c1_witness :
    parse_syslog_message refNow "random line without syslog framing" =
      [("raw", Value.str "random line without syslog framing")] :=
  claim_c1_nonmatching_raw_only refNow "random line without syslog framing" (by decide)

/-- C2: for every line matching the recognized grammar,
`parse_syslog_message` populates `pri`, `facility`, `severity`, `host`,
`tag` and `message`, with `facility = pri / 8` and `severity = pri % 8`
exactly (integer division on non-negative operands); no upper bound on
`pri` or `facility` is enforced — the hypothesis constrains only the
match, never the magnitude of `pri`. -/
theorem claim_c2_matched_fields (now : DateTime) (s : String) (m : SyslogGroups)
    (h : syslogPatternMatch s.toList = some m) :
    parse_syslog_message now s =
      [("raw", Value.str s),
       ("pri", Value.int (strToNat m.pri)),
       ("facility", Value.int (strToNat m.pri / 8)),
       ("severity", Value.int (strToNat m.pri % 8)),
       ("timestamp", if _parse_timestamp now m.timestamp = "" then Value.none
                     else Value.str (_parse_timestamp now m.timestamp)),
       ("host", Value.str m.host),
       ("tag", Value.str m.tag),
       ("message", Value.str m.body)] := by
  have h' : syslogPatternMatch s.data = some m := h
  simp [parse_syslog_message, _decode_pri, h']

/-- Witness for C2 at a line whose PRI value 999 is far out of the
historical 0–191 range: it is decoded arithmetically (`facility = 124`,
`severity = 7`) without rejection. -/
theorem claim_c2_witness :
    parse_syslog_message refNow "<999>Oct 11 22:14:15 host tag: msg" =
      [("raw", Value.str "<999>Oct 11 22:14:15 host tag: msg"),
       ("pri", Value.int 999),
       ("facility", Value.int 124),
       ("severity", Value.int 7),
       ("timestamp", Value.str "2026-10-11T22:14:15Z"),
       ("host", Value.str "host"),
       ("tag", Value.str "tag"),
       ("message", Value.str "msg")] := by
  rw [claim_c2_matched_fields refNow "<999>Oct 11 22:14:15 host tag: msg"
    ⟨"999", "Oct 11 22:14:15", "host", "tag", "msg"⟩ (by decide)]
  decide

/-- C6: concrete scenario A — the RFC 3164 example line yields `pri = 34`,
`facility = 4`, `severity = 2`, `host = "mymachine"`, `tag = "su"`,
`message = "'su root' failed for lonvick on /dev/pts/8"`, and a timestamp
resolved to October 11 22:14:15 UTC of the appropriate year (2026, the
year of the `refNow` wall clock, since the candidate is not in the
future). -/
theorem claim_c6_scenario_a :
    parse_syslog_message refNow
        "<34>Oct 11 22:14:15 mymachine su: 'su root' failed for lonvick on /dev/pts/8" =
      [("raw", Value.str
          "<34>Oct 11 22:14:15 mymachine su: 'su root' failed for lonvick on /dev/pts/8"),
       ("pri", Value.int 34),
       ("facility", Value.int 4),
       ("severity", Value.int 2),
       ("timestamp", Value.str "2026-10-11T22:14:15Z"),
       ("host", Value.str "mymachine"),
       ("tag", Value.str "su"),
       ("message", Value.str "'su root' failed for lonvick on /dev/pts/8")] := by
  decide

/-- C8: `RedisStreamWriter.write` performs exactly one `xadd` append
attempt per call — with the writer's stream name and the serialized
payload — and returns that attempt's outcome unchanged: an `xadd` failure
surfaces to the caller as the same explicit error (never retried, never
swallowed), and an `xadd` success returns the assigned record id. -/
theorem claim_c8_single_append_propagates (w : RedisStreamWriter)
    (event : List (String × Value)) :
    (w.write event).1 = w.xadd w.stream_name (writePayload event) ∧
    (w.write event).2 = [⟨w.stream_name, writePayload event⟩] :=
  ⟨rfl, rfl⟩

/-- C9: for every inbound datagram, the Stream Writer outcome in the
per-datagram handling path is absorbed by the server's dispatch (inherited
from `socketserver.ThreadingUDPServer`): the server state is unchanged —
in particular a listening server keeps listening, so reception of
subsequent datagrams is not terminated — and a write error is logged
(`handle_error`) and the event dropped rather than propagated. -/
theorem claim_c9_error_isolated (st : ServerState) (parseNow recvNow : DateTime)
    (w : RedisStreamWriter) (text : String) :
    (process_request_thread st (RedisSyslogUDPHandler.handle parseNow recvNow w text).1).1 = st ∧
    (process_request_thread st (RedisSyslogUDPHandler.handle parseNow recvNow w text).1).2 =
      (match (RedisSyslogUDPHandler.handle parseNow recvNow w text).1 with
       | Except.ok _ => Option.none
       | Except.error e => some e) := by
  cases h : (RedisSyslogUDPHandler.handle parseNow recvNow w text).1 <;>
    simp [process_request_thread, h]

/-- The datetime produced by the modelled `strptime` call carries exactly
the year that was passed in — the year `_parse_timestamp` pairs with the
parsed month/day/time. -/
theorem strptimeTimestamp_year (y : Nat) (ts : String) (dt : DateTime)
    (h : strptimeTimestamp y ts = some dt) : dt.year = y := by
  unfold strptimeTimestamp at h
  simp only [] at h
  repeat' split at h
  all_goals simp_all
  all_goals (subst h; rfl)

/-- Counterexample for C3: the unconditional rollback claim fails on the
reachable Feb-29 case.  With the wall clock at 2028-01-15 (a leap current
year) the input "Feb 29 10:00:00" parses to the candidate 2028-02-29,
which is strictly in the future — yet the program does not return the
earlier-year timestamp: `dt.replace(year=2027)` raises `ValueError`
(2027-02-29 does not exist), the `except` clause catches it, and
resolution fails with the empty sentinel (so the event's `timestamp`
becomes null) instead of subtracting one year. -/
theorem claim_c3_counterexample :
    strptimeTimestamp 2028 "Feb 29 10:00:00" = some ⟨2028, 2, 29, 10, 0, 0, 0⟩ ∧
    dtGt ⟨2028, 2, 29, 10, 0, 0, 0⟩ ⟨2028, 1, 15, 0, 0, 0, 0⟩ = true ∧
    _parse_timestamp ⟨2028, 1, 15, 0, 0, 0, 0⟩ "Feb 29 10:00:00" = "" ∧
    _parse_timestamp ⟨2028, 1, 15, 0, 0, 0, 0⟩ "Feb 29 10:00:00" ≠
      (DateTime.mk 2027 2 29 10 0 0 0).isoformat ++ "Z" := by
  decide

/-- C3 (amended): timestamp resolution pairs the current calendar year
with the parsed month/day/time (first conjunct), and when the candidate is
strictly later than the current wall-clock time it subtracts one year —
except that when the rolled-back date does not exist (Feb 29 of a leap
current year) the rollback's `ValueError` makes resolution fail and the
timestamp is left unresolved; a candidate not in the future is kept as is
(second conjunct).  The witness instantiates the rollback branch at
"Dec 31 23:59:59" against a current time of Jan 1 00:00:01 of the next
calendar year, yielding the earlier year. -/
theorem claim_c3_year_rollback (now : DateTime) (ts : String) (dt : DateTime)
    (hps : strptimeTimestamp now.year ts = some dt) :
    dt.year = now.year ∧
    _parse_timestamp now ts =
      (if dtGt dt now then
        (if dt.day ≤ daysInMonth (dt.year - 1) dt.month then
          ({ dt with year := dt.year - 1 }).isoformat ++ "Z"
         else "")
       else dt.isoformat ++ "Z") := by
  refine ⟨strptimeTimestamp_year now.year ts dt hps, ?_⟩
  unfold _parse_timestamp resolveTimestamp
  rw [hps]
  cases hg : dtGt dt now
  · simp [hg]
  · by_cases hd : dt.day ≤ daysInMonth (dt.year - 1) dt.month <;> simp [hg, hd]

/-- Witness for C3: resolving "Dec 31 23:59:59" while the wall clock reads
Jan 1 00:00:01 of 2026 yields December 31 of 2025, the earlier year. -/
theorem claim_c3_witness :
    _parse_timestamp ⟨2026, 1, 1, 0, 0, 1, 0⟩ "Dec 31 23:59:59" = "2025-12-31T23:59:59Z" := by
  rw [(claim_c3_year_rollback ⟨2026, 1, 1, 0, 0, 1, 0⟩ "Dec 31 23:59:59"
    ⟨2026, 12, 31, 23, 59, 59, 0⟩ (by decide)).2]
  decide

/-- C4: for every line matching the grammar whose timestamp token does not
resolve to a valid calendar date, `parse_syslog_message` does not raise and
returns an event whose `timestamp` is null while `pri`, `facility`,
`severity`, `host`, `tag` and `message` remain populated. -/
theorem claim_c4_invalid_timestamp_null (now : DateTime) (s : String) (m : SyslogGroups)
    (h : syslogPatternMatch s.toList = some m)
    (hts : resolveTimestamp now m.timestamp = Option.none) :
    parse_syslog_message now s =
      [("raw", Value.str s),
       ("pri", Value.int (strToNat m.pri)),
       ("facility", Value.int (strToNat m.pri / 8)),
       ("severity", Value.int (strToNat m.pri % 8)),
       ("timestamp", Value.none),
       ("host", Value.str m.host),
       ("tag", Value.str m.tag),
       ("message", Value.str m.body)] := by
  have h' : syslogPatternMatch s.data = some m := h
  simp [parse_syslog_message, _decode_pri, h', _parse_timestamp, hts]

/-- Witness for C4: "Feb 30" matches the wire grammar but is not a valid
calendar date, so the event carries a null `timestamp` and every other
field. -/
theorem claim_c4_witness :
    parse_syslog_message refNow "<34>Feb 30 10:00:00 host tag: msg" =
      [("raw", Value.str "<34>Feb 30 10:00:00 host tag: msg"),
       ("pri", Value.int 34),
       ("facility", Value.int 4),
       ("severity", Value.int 2),
       ("timestamp", Value.none),
       ("host", Value.str "host"),
       ("tag", Value.str "tag"),
       ("message", Value.str "msg")] := by
  rw [claim_c4_invalid_timestamp_null refNow "<34>Feb 30 10:00:00 host tag: msg"
    ⟨"34", "Feb 30 10:00:00", "host", "tag", "msg"⟩ (by decide) (by decide)]
  decide

/-- C10 (implicit): when the grammar matches but timestamp resolution
fails, the returned dictionary contains the key `"timestamp"` explicitly
mapped to `None` (first conjunct) — unlike a full parse miss, where every
non-`raw` key is entirely absent (second conjunct); and a successful
resolution always produces a non-empty string, so the empty-string failure
sentinel of `_parse_timestamp` is never confused with a valid timestamp
(third conjunct). -/
theorem claim_c10_null_vs_absent :
    (∀ (now : DateTime) (s : String) (m : SyslogGroups),
        syslogPatternMatch s.toList = some m →
        resolveTimestamp now m.timestamp = Option.none →
        ("timestamp", Value.none) ∈ parse_syslog_message now s) ∧
    (∀ (now : DateTime) (s : String),
        syslogPatternMatch s.toList = Option.none →
        parse_syslog_message now s = [("raw", Value.str s)]) ∧
    (∀ (now : DateTime) (ts : String) (dt : DateTime),
        resolveTimestamp now ts = some dt → _parse_timestamp now ts ≠ "") := by
  refine ⟨?_, ?_, ?_⟩
  · intro now s m h hts
    have h' : syslogPatternMatch s.data = some m := h
    simp [parse_syslog_message, _decode_pri, h', _parse_timestamp, hts]
  · intro now s h
    have h' : syslogPatternMatch s.data = Option.none := h
    simp [parse_syslog_message, h']
  · intro now ts dt h hcontra
    unfold _parse_timestamp at hcontra
    rw [h] at hcontra
    have h2 : (dt.isoformat ++ "Z").data = "".data := congrArg String.data hcontra
    rw [String.data_append] at h2
    simp at h2

/-- Witness for C10: a resolution failure inside a matching line leaves a
present-but-null `timestamp` key, a full miss leaves only `raw`, and a
successful resolution is a non-empty string. -/
theorem claim_c10_witness :
    ("timestamp", Value.none) ∈
        parse_syslog_message refNow "<34>Feb 30 10:00:00 h t: m" ∧
    parse_syslog_message refNow "nope" = [("raw", Value.str "nope")] ∧
    _parse_timestamp refNow "Oct 11 22:14:15" ≠ "" :=
  ⟨claim_c10_null_vs_absent.1 refNow "<34>Feb 30 10:00:00 h t: m"
      ⟨"34", "Feb 30 10:00:00", "h", "t", "m"⟩ (by decide) (by decide),
   claim_c10_null_vs_absent.2.1 refNow "nope" (by decide),
   claim_c10_null_vs_absent.2.2 refNow "Oct 11 22:14:15"
      ⟨2026, 10, 11, 22, 14, 15, 0⟩ (by decide)⟩

/-- Any key/value pair emitted by `writePayload` comes from a non-`None`
field of the event, converted with `str`. -/
theorem writePayload_mem {event : List (String × Value)} {k s : String}
    (h : (k, s) ∈ writePayload event) :
    ∃ v, (k, v) ∈ event ∧ v ≠ Value.none ∧ valueToStr v = s := by
  rw [writePayload] at h
  rcases List.mem_filterMap.mp h with ⟨⟨k', v'⟩, hmem, hf⟩
  cases v' with
  | str t => exact ⟨Value.str t, by simp_all, by simp, by simp_all [valueToStr]⟩
  | int n => exact ⟨Value.int n, by simp_all, by simp, by simp_all [valueToStr]⟩
  | none => simp at hf

/-- C5: round-trip serialization — every field of the event whose value is
present appears in the written record as its string conversion, and every
field whose value is `None` is omitted entirely as a key (never written as
an empty string or a null marker).  The key-uniqueness hypothesis holds for
every Python dict. -/
theorem claim_c5_roundtrip (event : List (String × Value))
    (hnd : (event.map Prod.fst).Nodup) (k : String) (v : Value)
    (hmem : (k, v) ∈ event) :
    (v = Value.none → ∀ s, (k, s) ∉ writePayload event) ∧
    (v ≠ Value.none → (k, valueToStr v) ∈ writePayload event) := by
  constructor
  · rintro rfl s hin
    obtain ⟨v', hv'mem, hv'ne, _⟩ := writePayload_mem hin
    have heq : (k, Value.none) = (k, v') :=
      List.inj_on_of_nodup_map hnd hmem hv'mem rfl
    injection heq with h1 h2
    exact hv'ne h2.symm
  · intro hv
    rw [writePayload]
    refine List.mem_filterMap.mpr ⟨(k, v), hmem, ?_⟩
    cases v <;> simp_all [valueToStr]

/-- Witness for C5: in a concrete event, the null `timestamp` key is absent
from the record while the present `pri` field appears as the string
`"34"`. -/
theorem claim_c5_witness :
    ("timestamp", "") ∉
        writePayload [("raw", Value.str "x"), ("timestamp", Value.none), ("pri", Value.int 34)] ∧
    ("pri", "34") ∈
        writePayload [("raw", Value.str "x"), ("timestamp", Value.none), ("pri", Value.int 34)] :=
  ⟨(claim_c5_roundtrip [("raw", Value.str "x"), ("timestamp", Value.none), ("pri", Value.int 34)]
      (by decide) "timestamp" Value.none (by decide)).1 rfl "",
   by
    have h := (claim_c5_roundtrip
      [("raw", Value.str "x"), ("timestamp", Value.none), ("pri", Value.int 34)]
      (by decide) "pri" (Value.int 34) (by decide)).2 (by simp)
    simpa [valueToStr] using h⟩

/-- A successful `matchBody` never returns a body containing a newline:
`.*` cannot cross a newline and `$` accepts only at the end of the string
or before a terminal newline. -/
theorem matchDotStarEnd_no_newline {l b : List Char} (h : matchDotStarEnd l = some b) :
    '\n' ∉ b := by
  unfold matchDotStarEnd at h
  simp only [munch] at h
  split at h
  · injection h with h2
    subst h2
    intro hc
    have hp := List.mem_takeWhile_imp hc
    simp at hp
  · exact Option.noConfusion h

theorem matchBody_no_newline {r b : List Char} (h : matchBody r = some b) :
    '\n' ∉ b := by
  unfold matchBody at h
  repeat' split at h
  all_goals first
    | exact Option.noConfusion h
    | exact matchDotStarEnd_no_newline h
    | (injection h with h2
       subst h2
       exact matchDotStarEnd_no_newline (by assumption))

/-- Counterexample for C7: a line whose BODY portion contains an embedded
newline does not parse at all — contrary to the claim, `SYSLOG_PATTERN`
fails on it (Python's `.` does not match a newline and the pattern is
`$`-anchored), so the parser returns only `raw` and no `message` field
exists to preserve the newline in. -/
theorem claim_c7_counterexample :
    syslogPatternMatch "<34>Oct 11 22:14:15 mymachine su: a\nb".toList = Option.none ∧
    parse_syslog_message refNow "<34>Oct 11 22:14:15 mymachine su: a\nb" =
      [("raw", Value.str "<34>Oct 11 22:14:15 mymachine su: a\nb")] := by
  decide

/-- C7 (amended): the grammar is end-anchored and its BODY group cannot
span a newline, so no line matching `SYSLOG_PATTERN` ever yields a
`message` containing a newline — a line with an embedded newline in its
body fails to match and is preserved (newline included) only in `raw`. -/
theorem claim_c7_amended (s : String) (m : SyslogGroups)
    (h : syslogPatternMatch s.toList = some m) :
    '\n' ∉ m.body.toList := by
  unfold syslogPatternMatch at h
  simp only [] at h
  repeat' split at h
  all_goals first
    | exact Option.noConfusion h
    | (injection h with h2
       subst h2
       exact matchBody_no_newline (by assumption))

/-- Witness for C7 (amended), at a concrete matching line. -/
theorem claim_c7_witness :
    '\n' ∉ (SyslogGroups.body ⟨"34", "Oct 11 22:14:15", "host", "tag", "msg"⟩).toList :=
  claim_c7_amended "<34>Oct 11 22:14:15 host tag: msg"
    ⟨"34", "Oct 11 22:14:15", "host", "tag", "msg"⟩ (by decide)

end SyslogStream
